import Mathlib

/-!
Shallow embedding of the ama-nip-reset service core (src/index.js) and of the
single migration in src/migrations.  Machine state is the list of rows of the
`nip_reset_tokens` table, in insertion order; timestamps are integers
(milliseconds, as produced by JavaScript `Date.now()` / Postgres `now()` after
conversion in `new Date(...).getTime()`).  The SHA-256 digest, the HMAC and
`JSON.stringify` are opaque to the handlers, so they are passed in as function
parameters; the webhook network is modelled by an outcome per attempt number.
-/

namespace AmaNipReset

/-- One row of the `nip_reset_tokens` table.  The base columns
(`customer_ref`, `token_hash`, `expires_at`, `used_at`, `created_at`,
`request_ip`, `user_agent`) are those written by the INSERT in
src/index.js lines 670-696; the vehicle-context columns are the nullable
text columns added by src/migrations/001_nip_reset_tokens_vehicle_context.sql. -/
structure TokenRow where
  customer_ref : Option String
  cliente_id : Option String
  contacto_record_id : Option String
  vehiculo_id : Option String
  vehiculo_record_id : Option String
  vehiculo_apodo : Option String
  token_hash : String
  expires_at : Int
  used_at : Option Int
  created_at : Int
  request_ip : Option String
  user_agent : Option String
deriving DecidableEq, Repr

/-- Truthiness of a nullable text column as JavaScript sees it
(`!row.cliente_id` in src/index.js line 823): null and the empty string are
falsy, every other string is truthy. -/
def textPresent : Option String → Bool
  | some s => !(s == "")
  | none => false

/-- JavaScript `a || b || null` on nullable text values
(src/index.js line 842). -/
def jsOrText (a b : Option String) : Option String :=
  if textPresent a then a else if textPresent b then b else none

/-- Zod check `z.string().trim().regex(/^\d{4}$/)` on an already-trimmed
value (src/index.js lines 97-98). -/
def isNip4 (s : String) : Bool :=
  decide (s.data.length = 4) && s.data.all Char.isDigit

/-- Zod check `z.string().trim().min(20).max(200)` on an already-trimmed
value (src/index.js line 96). -/
def validTokenShape (s : String) : Bool :=
  decide (20 ≤ s.data.length) && decide (s.data.length ≤ 200)

/-- Body validation of POST /nip-reset/confirm (nipResetConfirmSchema,
src/index.js lines 95-99). -/
def validConfirmBody (token nip nipConfirm : String) : Bool :=
  validTokenShape token && isNip4 nip && isNip4 nipConfirm

/-- Accumulator step of `ORDER BY created_at DESC LIMIT 1` restricted to rows
whose token_hash matches; a later-inserted row wins a created_at tie. -/
def pickLatest (h : String) : Option TokenRow → TokenRow → Option TokenRow
  | none, r => if r.token_hash = h then some r else none
  | some b, r =>
    if r.token_hash = h then
      (if b.created_at ≤ r.created_at then some r else some b)
    else some b

/-- The query `SELECT ... FROM nip_reset_tokens WHERE token_hash = $1 ORDER BY
created_at DESC LIMIT 1` used by both token-info (src/index.js lines 738-745)
and confirm (lines 788-804). -/
def latestByHash (db : List TokenRow) (h : String) : Option TokenRow :=
  db.foldl (pickLatest h) none

/-- Effect on a single row of `UPDATE nip_reset_tokens SET used_at = now()
WHERE token_hash = $1 AND used_at IS NULL` (src/index.js lines 710 and 860). -/
def markUsedRow (h : String) (now : Int) (r : TokenRow) : TokenRow :=
  if r.token_hash = h ∧ r.used_at = none then { r with used_at := some now } else r

/-- The table after that UPDATE. -/
def markUsedByHash (db : List TokenRow) (h : String) (now : Int) : List TokenRow :=
  db.map (markUsedRow h now)

/-- The rowCount reported by that UPDATE (checked against 1 at
src/index.js line 864). -/
def markUsedCount (db : List TokenRow) (h : String) : Nat :=
  (db.filter (fun r => decide (r.token_hash = h ∧ r.used_at = none))).length

/-- Effect on a single row of the supersede statement `UPDATE nip_reset_tokens
SET used_at = now() WHERE cliente_id = $1 AND vehiculo_id = $2 AND used_at IS
NULL` (src/index.js lines 661-668); SQL equality never matches a NULL column. -/
def supersedeRow (c v : String) (now : Int) (r : TokenRow) : TokenRow :=
  if r.cliente_id = some c ∧ r.vehiculo_id = some v ∧ r.used_at = none then
    { r with used_at := some now }
  else r

/-- The table after the supersede UPDATE. -/
def supersedeActive (db : List TokenRow) (c v : String) (now : Int) : List TokenRow :=
  db.map (supersedeRow c v now)

/-- isVehicleRateLimited (src/index.js lines 251-263): counts rows for the
(cliente_id, vehiculo_id) pair with `created_at > now() - (window * interval
'1 minute')` and compares the count against the per-window maximum with `>=`. -/
def isVehicleRateLimited (db : List TokenRow) (now : Int)
    (windowMinutes maxPerWindow : Nat) (clienteId vehiculoId : String) : Bool :=
  decide (maxPerWindow ≤
    (db.filter (fun r => decide (r.cliente_id = some clienteId ∧
      r.vehiculo_id = some vehiculoId ∧
      now - (windowMinutes : Int) * 60000 < r.created_at))).length)

/-- Outcome of one webhook delivery attempt: a 2xx response, a non-2xx
response, or a network/timeout error (the two error cases take different
paths through the try/catch of src/index.js lines 297-320 but converge). -/
inductive AttemptOutcome
  | success
  | httpError
  | netError
deriving DecidableEq, Repr

/-- resp.ok of an attempt; both error kinds are not ok. -/
def attemptOk : AttemptOutcome → Bool
  | .success => true
  | .httpError => false
  | .netError => false

/-- One POST actually sent to the webhook endpoint, with the header values
`x-ama-event`, `x-ama-timestamp`, `x-ama-signature` and the body
(src/index.js lines 298-311). -/
structure SentRequest where
  url : String
  event : String
  timestamp : String
  signature : String
  body : String
deriving DecidableEq, Repr

/-- Observable actions of the webhook loop: a POST, or the fixed
`await sleep(retryDelayMs)` between attempts (src/index.js line 322). -/
inductive WebhookAction
  | send (req : SentRequest)
  | sleep (ms : Nat)
deriving DecidableEq, Repr

/-- buildWebhookSignature (src/index.js lines 275-278): HMAC-SHA256 of
`timestamp + "." + payloadString` under the shared secret. -/
def buildWebhookSignature (hmacSha256 : String → String → String)
    (secret timestamp payloadString : String) : String :=
  hmacSha256 secret (timestamp ++ "." ++ payloadString)

/-- The webhook payload built by the confirm handler
(src/index.js lines 836-846). -/
structure WebhookPayload where
  evento : String
  request_id : String
  timestamp : String
  cliente_id : String
  vehiculoId : String
  contacto_record_id : Option String
  vehiculo_record_id : Option String
  apodo : Option String
  nuevo_nip : String
deriving DecidableEq, Repr

/-- The constant maxAttempts = 2 of src/index.js line 289. -/
def webhookMaxAttempts : Nat := 2

/-- The for-loop of sendNipPersistWebhook (src/index.js lines 293-323):
each attempt signs the (already serialized) body with a fresh timestamp and
sends it; a 2xx response returns success; any other outcome on the last
attempt is a failure; otherwise the loop sleeps the fixed delay and retries.
The fuel argument counts the attempts still allowed, so the loop is entered
with attempt 1 and fuel webhookMaxAttempts. -/
def webhookAttemptLoop (hmacSha256 : String → String → String)
    (url secret eventName body : String) (retryDelayMs : Nat)
    (ts : Nat → String) (outcome : Nat → AttemptOutcome) :
    Nat → Nat → List WebhookAction × Bool
  | _, 0 => ([], false)
  | attempt, fuel + 1 =>
    let t := ts attempt
    let signature := buildWebhookSignature hmacSha256 secret t body
    let req : SentRequest := ⟨url, eventName, t, signature, body⟩
    if attemptOk (outcome attempt) then ([WebhookAction.send req], true)
    else if fuel = 0 then ([WebhookAction.send req], false)
    else
      let rest := webhookAttemptLoop hmacSha256 url secret eventName body
        retryDelayMs ts outcome (attempt + 1) fuel
      (WebhookAction.send req :: WebhookAction.sleep retryDelayMs :: rest.1, rest.2)

/-- sendNipPersistWebhook (src/index.js lines 280-324): serializes the payload
once (line 291: `const body = JSON.stringify(payload)`), then runs the attempt
loop; returns the action trace and whether delivery succeeded. -/
def sendNipPersistWebhook (hmacSha256 : String → String → String)
    (serialize : WebhookPayload → String) (url secret : String) (retryDelayMs : Nat)
    (ts : Nat → String) (outcome : Nat → AttemptOutcome) (payload : WebhookPayload) :
    List WebhookAction × Bool :=
  let body := serialize payload
  webhookAttemptLoop hmacSha256 url secret payload.evento body retryDelayMs ts outcome
    1 webhookMaxAttempts

/-- The POSTs of an action trace. -/
def sentRequests (actions : List WebhookAction) : List SentRequest :=
  actions.filterMap (fun a =>
    match a with
    | WebhookAction.send r => some r
    | WebhookAction.sleep _ => none)

/-- Response of POST /nip-reset/confirm together with the table state it
leaves behind (after COMMIT or ROLLBACK) and the webhook actions it caused. -/
structure ConfirmResult where
  status : Nat
  ok : Bool
  message : String
  db : List TokenRow
  actions : List WebhookAction
deriving DecidableEq, Repr

/-- The webhook payload of src/index.js lines 836-846 for a locked row. -/
def confirmPayload (row : TokenRow) (requestId nowIso nip : String) : WebhookPayload :=
  { evento := "NIP_RESET_CONFIRMADO"
    request_id := requestId
    timestamp := nowIso
    cliente_id := row.cliente_id.getD ""
    vehiculoId := row.vehiculo_id.getD ""
    contacto_record_id := jsOrText row.contacto_record_id row.customer_ref
    vehiculo_record_id := if textPresent row.vehiculo_record_id then row.vehiculo_record_id else none
    apodo := if textPresent row.vehiculo_apodo then row.vehiculo_apodo else none
    nuevo_nip := nip }

/-- POST /nip-reset/confirm handler (src/index.js lines 771-878).  The zod
parse, the NIP mismatch check, the locked SELECT, the three 403 branches, the
legacy-row 503 branch, the webhook call with ROLLBACK on failure, the
markUsed UPDATE with its rowCount check, and the final COMMIT.  The source
runs the UPDATE and then checks rowCount before deciding COMMIT versus
ROLLBACK; since ROLLBACK discards the UPDATE, the model computes the rowCount
first and applies the UPDATE only on the COMMIT path, which leaves the same
observable table. -/
def confirmHandler (sha256Hex : String → String) (hmacSha256 : String → String → String)
    (serialize : WebhookPayload → String) (webhookUrl webhookSecret : String)
    (retryDelayMs : Nat) (db : List TokenRow) (now : Int) (nowIso requestId : String)
    (ts : Nat → String) (outcome : Nat → AttemptOutcome)
    (token nip nipConfirm : String) : ConfirmResult :=
  if !(validConfirmBody token nip nipConfirm) then
    ⟨400, false, "Datos inválidos.", db, []⟩
  else if nip ≠ nipConfirm then
    ⟨400, false, "Los NIP no coinciden.", db, []⟩
  else
    let tokenHash := sha256Hex token
    match latestByHash db tokenHash with
    | none => ⟨403, false, "Liga inválida o expirada.", db, []⟩
    | some row =>
      if row.used_at.isSome then
        ⟨403, false, "Liga inválida o expirada.", db, []⟩
      else if row.expires_at < now then
        ⟨403, false, "Liga inválida o expirada.", db, []⟩
      else if !(textPresent row.cliente_id && textPresent row.vehiculo_id) then
        ⟨503, false, "Función en configuración. Solicita un nuevo restablecimiento.", db, []⟩
      else
        let payload := confirmPayload row requestId nowIso nip
        let wh := sendNipPersistWebhook hmacSha256 serialize webhookUrl webhookSecret
          retryDelayMs ts outcome payload
        if !wh.2 then
          ⟨503, false, "No fue posible completar la operación. Intenta nuevamente.", db, wh.1⟩
        else if markUsedCount db tokenHash ≠ 1 then
          ⟨403, false, "Liga inválida o expirada.", db, wh.1⟩
        else
          ⟨200, true, "Listo. Tu NIP se actualizó correctamente.",
            markUsedByHash db tokenHash now, wh.1⟩

/-- Response of GET /nip-reset/token-info.  The 200 response carries no
message field, modelled as the empty string. -/
structure TokenInfoResult where
  status : Nat
  ok : Bool
  message : String
  cliente_id : Option String
  vehiculoId : Option String
  identifica_tu_vehiculo : Option String
deriving DecidableEq, Repr

/-- GET /nip-reset/token-info handler (src/index.js lines 729-766): zod shape
check, point read by hash, one combined used-or-expired 403 branch, and the
200 body with the JavaScript default `row.vehiculo_apodo || "Vehículo sin
apodo"`. -/
def tokenInfoHandler (sha256Hex : String → String) (db : List TokenRow)
    (now : Int) (token : String) : TokenInfoResult :=
  if !(validTokenShape token) then
    ⟨400, false, "Token inválido.", none, none, none⟩
  else
    match latestByHash db (sha256Hex token) with
    | none => ⟨403, false, "Liga inválida o expirada.", none, none, none⟩
    | some row =>
      if row.used_at.isSome || decide (row.expires_at < now) then
        ⟨403, false, "Liga inválida o expirada.", none, none, none⟩
      else
        ⟨200, true, "", row.cliente_id, row.vehiculo_id,
          some (match row.vehiculo_apodo with
                | some a => if a = "" then "Vehículo sin apodo" else a
                | none => "Vehículo sin apodo")⟩

/-- One vehicle of the Airtable lookup result (listVehiculosByContacto,
src/index.js lines 218-242). -/
structure VehiculoInfo where
  vehiculo_record_id : String
  vehiculoId : String
  apodo : String
deriving DecidableEq, Repr

/-- The Airtable lookup result consumed by send-link
(findContactoAndVehiculos, src/index.js lines 244-249). -/
structure ContactoInfo where
  contacto_record_id : String
  cliente_id : String
  vehiculos : List VehiculoInfo
deriving DecidableEq, Repr

/-- Response of POST /nip-reset/send-link with the table state it leaves. -/
structure SendLinkResult where
  status : Nat
  ok : Bool
  message : String
  db : List TokenRow
deriving DecidableEq, Repr

/-- The row inserted by send-link (src/index.js lines 670-696), with
`created_at` filled by the column default now() and
`expires_at = now + ttlMinutes * 60000` (line 654). -/
def issuedRow (sha256Hex : String → String) (f : ContactoInfo) (sv : VehiculoInfo)
    (clienteId vehiculoId token : String) (now : Int) (ttlMinutes : Nat)
    (requestIp userAgent : Option String) : TokenRow :=
  { customer_ref := some f.contacto_record_id
    cliente_id := some clienteId
    contacto_record_id := some f.contacto_record_id
    vehiculo_id := some vehiculoId
    vehiculo_record_id := some sv.vehiculo_record_id
    vehiculo_apodo := some sv.apodo
    token_hash := sha256Hex token
    expires_at := now + (ttlMinutes : Int) * 60000
    used_at := none
    created_at := now
    request_ip := requestIp
    user_agent := userAgent }

/-- POST /nip-reset/send-link handler from the point where the Airtable
lookup has produced its result (src/index.js lines 634-723): the
cliente_id re-validation, the vehicle selection, the per-vehicle rate limit,
the supersede+insert transaction, and the email step whose failure
immediately invalidates the just-inserted token and surfaces the generic 500.
The random token is an input (the draw of crypto.randomBytes(32), line 655,
which happens only after the rate-limit check). -/
def sendLinkHandler (sha256Hex : String → String) (db : List TokenRow) (now : Int)
    (windowMinutes maxPerWindow ttlMinutes : Nat)
    (found : Option ContactoInfo) (cliente_id vehiculoId token : String)
    (emailOk : Bool) (requestIp userAgent : Option String) : SendLinkResult :=
  match found with
  | none => ⟨404, false, "Datos incorrectos", db⟩
  | some f =>
    if f.cliente_id ≠ cliente_id then ⟨404, false, "Datos incorrectos", db⟩
    else
      match f.vehiculos.find? (fun v => v.vehiculoId == vehiculoId) with
      | none => ⟨404, false, "Datos incorrectos", db⟩
      | some sv =>
        if isVehicleRateLimited db now windowMinutes maxPerWindow cliente_id vehiculoId then
          ⟨429, false, "Demasiados intentos. Intenta nuevamente más tarde.", db⟩
        else
          let newRow := issuedRow sha256Hex f sv cliente_id vehiculoId token now
            ttlMinutes requestIp userAgent
          let db2 := supersedeActive db cliente_id vehiculoId now ++ [newRow]
          if emailOk then
            ⟨200, true, "Hemos enviado al correo registrado la URL para reiniciar tu NIP.", db2⟩
          else
            ⟨500, false, "No fue posible completar la operación.",
              markUsedByHash db2 (sha256Hex token) now⟩

/-!
Concrete instances of the opaque parameters (digest, HMAC, serialization,
timestamps, attempt outcomes) and concrete table states, used to evaluate the
handlers on closed inputs.
-/

/-- A concrete stand-in for the sha256 hex digest used when running the model
on closed inputs. -/
def tHash : String → String := fun s => "sha:" ++ s

/-- A concrete stand-in for the keyed HMAC. -/
def tHmac : String → String → String := fun k m => k ++ "/" ++ m

/-- A concrete stand-in for JSON.stringify. -/
def tSer : WebhookPayload → String :=
  fun p => p.evento ++ "|" ++ p.request_id ++ "|" ++ p.nuevo_nip

/-- A concrete timestamp source. -/
def tTs : Nat → String := fun _ => "2026-01-01T00:00:00.000Z"

/-- Every webhook attempt gets a 2xx response. -/
def allOk : Nat → AttemptOutcome := fun _ => AttemptOutcome.success

/-- Every webhook attempt hits a network error. -/
def allFail : Nat → AttemptOutcome := fun _ => AttemptOutcome.netError

/-- A concrete 24-character token. -/
def tokA : String := "AAAAAAAAAAAAAAAAAAAAAAAA"

/-- A second concrete token. -/
def tokB : String := "BBBBBBBBBBBBBBBBBBBBBBBB"

/-- A third concrete token. -/
def tokC : String := "CCCCCCCCCCCCCCCCCCCCCCCC"

/-- A fourth concrete token. -/
def tokD : String := "DDDDDDDDDDDDDDDDDDDDDDDD"

/-- An active, unexpired row for subject (cli1, veh1) holding the hash of
tokA. -/
def rowA : TokenRow :=
  { customer_ref := some "recC1", cliente_id := some "cli1",
    contacto_record_id := some "recC1", vehiculo_id := some "veh1",
    vehiculo_record_id := some "recV1", vehiculo_apodo := some "Rojo",
    token_hash := tHash tokA, expires_at := 1000000, used_at := none,
    created_at := 0, request_ip := none, user_agent := none }

/-- A one-row table holding rowA. -/
def dbA : List TokenRow := [rowA]

/-- A row written by the earlier single-step flow: the vehicle-context
columns are NULL. -/
def rowLegacy : TokenRow :=
  { customer_ref := some "recC9", cliente_id := none, contacto_record_id := none,
    vehiculo_id := none, vehiculo_record_id := none, vehiculo_apodo := none,
    token_hash := tHash tokB, expires_at := 1000000, used_at := none,
    created_at := 0, request_ip := none, user_agent := none }

/-- A one-row table holding rowLegacy. -/
def dbLegacy : List TokenRow := [rowLegacy]

/-- An already-used row holding the hash of tokD. -/
def rowUsed : TokenRow := { rowA with token_hash := tHash tokD, used_at := some 3 }

/-- A concrete vehicle as returned by the Airtable lookup. -/
def fxVeh : VehiculoInfo := ⟨"recV2", "veh2", "Azul"⟩

/-- A concrete lookup result for subject cli2 owning fxVeh. -/
def fxContacto : ContactoInfo := ⟨"recC2", "cli2", [fxVeh]⟩

/-- An active, unexpired row for subject (cli2, veh2) holding the hash of
tokC, as left by an earlier issuance. -/
def rowOld : TokenRow :=
  { customer_ref := some "recC2", cliente_id := some "cli2",
    contacto_record_id := some "recC2", vehiculo_id := some "veh2",
    vehiculo_record_id := some "recV2", vehiculo_apodo := some "Azul",
    token_hash := tHash tokC, expires_at := 1000000, used_at := none,
    created_at := 0, request_ip := none, user_agent := none }

/-- A one-row table holding rowOld. -/
def dbOld : List TokenRow := [rowOld]

/-- A second active row for subject (cli2, veh2), issued a bit later. -/
def rowOld2 : TokenRow := { rowOld with token_hash := tHash tokB, created_at := 1 }

/-- A table in which subject (cli2, veh2) already has two recent rows. -/
def dbTwo : List TokenRow := [rowOld, rowOld2]

/-- A lookup result for subject cliX. -/
def c8contacto1 : ContactoInfo := ⟨"rec1", "cliX", [⟨"rvX", "vehX", "Uno"⟩]⟩

/-- A lookup result for a different subject cliY. -/
def c8contacto2 : ContactoInfo := ⟨"rec2", "cliY", [⟨"rvY", "vehY", "Dos"⟩]⟩

/-- The table after issuing the secret tokA for subject (cliX, vehX) on an
empty table. -/
def c8db1 : List TokenRow :=
  (sendLinkHandler tHash [] 0 60 2 60 (some c8contacto1) "cliX" "vehX" tokA
    true none none).db

/-- The table after then issuing the same secret tokA for the different
subject (cliY, vehY): the write path inserts a second row with the very same
token_hash and supersedes nothing. -/
def c8db2 : List TokenRow :=
  (sendLinkHandler tHash c8db1 1 60 2 60 (some c8contacto2) "cliY" "vehY" tokA
    true none none).db

/-! Basic facts about the row-level operations. -/

lemma markUsedRow_token_hash (h : String) (now : Int) (r : TokenRow) :
    (markUsedRow h now r).token_hash = r.token_hash := by
  unfold markUsedRow; split <;> rfl

lemma markUsedRow_created_at (h : String) (now : Int) (r : TokenRow) :
    (markUsedRow h now r).created_at = r.created_at := by
  unfold markUsedRow; split <;> rfl

lemma markUsedRow_used (h : String) (now : Int) (r : TokenRow)
    (hh : r.token_hash = h) : (markUsedRow h now r).used_at ≠ none := by
  unfold markUsedRow
  split
  · simp
  · rename_i hc
    intro hnone
    exact hc ⟨hh, hnone⟩

lemma supersedeRow_token_hash (c v : String) (now : Int) (r : TokenRow) :
    (supersedeRow c v now r).token_hash = r.token_hash := by
  unfold supersedeRow; split <;> rfl

lemma supersedeRow_created_at (c v : String) (now : Int) (r : TokenRow) :
    (supersedeRow c v now r).created_at = r.created_at := by
  unfold supersedeRow; split <;> rfl

lemma supersedeRow_used (c v : String) (now : Int) (r : TokenRow)
    (hc : r.cliente_id = some c) (hv : r.vehiculo_id = some v) :
    (supersedeRow c v now r).used_at ≠ none := by
  unfold supersedeRow
  split
  · simp
  · rename_i hcond
    intro hnone
    exact hcond ⟨hc, hv, hnone⟩

lemma markUsedByHash_all_used (db : List TokenRow) (h : String) (now : Int) :
    ∀ r ∈ markUsedByHash db h now, r.token_hash = h → r.used_at ≠ none := by
  intro r hr hh
  rcases List.mem_map.mp hr with ⟨r0, _, rfl⟩
  refine markUsedRow_used h now r0 ?_
  rw [← markUsedRow_token_hash h now r0]
  exact hh

/-! Facts about the point read by hash. -/

lemma pickLatest_eq_some (h : String) (acc : Option TokenRow) (x r : TokenRow)
    (hp : pickLatest h acc x = some r) : acc = some r ∨ (r = x ∧ r.token_hash = h) := by
  cases acc with
  | none =>
    simp only [pickLatest] at hp
    split at hp
    · rename_i hx
      injection hp with hp
      exact Or.inr ⟨hp.symm, hp ▸ hx⟩
    · exact absurd hp (by simp)
  | some b =>
    simp only [pickLatest] at hp
    split at hp
    · rename_i hx
      split at hp
      · injection hp with hp
        exact Or.inr ⟨hp.symm, hp ▸ hx⟩
      · exact Or.inl hp
    · exact Or.inl hp

lemma foldl_pickLatest_some (h : String) (db : List TokenRow) :
    ∀ (acc : Option TokenRow) (r : TokenRow),
      db.foldl (pickLatest h) acc = some r → acc = some r ∨ (r ∈ db ∧ r.token_hash = h) := by
  induction db with
  | nil => intro acc r hf; exact Or.inl hf
  | cons x xs ih =>
    intro acc r hf
    rcases ih (pickLatest h acc x) r hf with h1 | h2
    · rcases pickLatest_eq_some h acc x r h1 with h3 | h3
      · exact Or.inl h3
      · exact Or.inr ⟨by rw [h3.1]; exact List.mem_cons_self _ _, h3.2⟩
    · exact Or.inr ⟨List.mem_cons_of_mem _ h2.1, h2.2⟩

lemma latestByHash_spec (db : List TokenRow) (h : String) (r : TokenRow)
    (hf : latestByHash db h = some r) : r ∈ db ∧ r.token_hash = h := by
  rcases foldl_pickLatest_some h db none r hf with h1 | h2
  · exact absurd h1 (by simp)
  · exact h2

lemma pickLatest_map (h : String) (f : TokenRow → TokenRow)
    (hhash : ∀ r, (f r).token_hash = r.token_hash)
    (hca : ∀ r, (f r).created_at = r.created_at)
    (acc : Option TokenRow) (x : TokenRow) :
    pickLatest h (acc.map f) (f x) = (pickLatest h acc x).map f := by
  cases acc with
  | none =>
    simp only [Option.map_none', pickLatest, hhash]
    split <;> simp
  | some b =>
    simp only [Option.map_some', pickLatest, hhash, hca]
    split
    · split <;> simp
    · simp

lemma foldl_pickLatest_map (h : String) (f : TokenRow → TokenRow)
    (hhash : ∀ r, (f r).token_hash = r.token_hash)
    (hca : ∀ r, (f r).created_at = r.created_at)
    (db : List TokenRow) :
    ∀ acc : Option TokenRow,
      (db.map f).foldl (pickLatest h) (acc.map f) = (db.foldl (pickLatest h) acc).map f := by
  induction db with
  | nil => intro acc; simp
  | cons x xs ih =>
    intro acc
    simp only [List.map_cons, List.foldl_cons]
    rw [pickLatest_map h f hhash hca acc x]
    exact ih (pickLatest h acc x)

lemma latestByHash_map (h : String) (f : TokenRow → TokenRow)
    (hhash : ∀ r, (f r).token_hash = r.token_hash)
    (hca : ∀ r, (f r).created_at = r.created_at)
    (db : List TokenRow) :
    latestByHash (db.map f) h = (latestByHash db h).map f := by
  have := foldl_pickLatest_map h f hhash hca db none
  simpa [latestByHash] using this

/-! Facts about the webhook delivery loop. -/

lemma sendNipPersistWebhook_first_success
    (hm : String → String → String) (ser : WebhookPayload → String)
    (url sec : String) (d : Nat) (ts : Nat → String)
    (outcome : Nat → AttemptOutcome) (p : WebhookPayload)
    (hok : attemptOk (outcome 1) = true) :
    sendNipPersistWebhook hm ser url sec d ts outcome p =
      ([WebhookAction.send
          ⟨url, p.evento, ts 1, buildWebhookSignature hm sec (ts 1) (ser p), ser p⟩],
        true) := by
  simp only [sendNipPersistWebhook, webhookMaxAttempts]
  rw [show (2 : Nat) = 1 + 1 from rfl]
  rw [webhookAttemptLoop]
  simp [hok]

lemma sendNipPersistWebhook_all_fail
    (hm : String → String → String) (ser : WebhookPayload → String)
    (url sec : String) (d : Nat) (ts : Nat → String)
    (outcome : Nat → AttemptOutcome) (p : WebhookPayload)
    (h1 : attemptOk (outcome 1) = false) (h2 : attemptOk (outcome 2) = false) :
    sendNipPersistWebhook hm ser url sec d ts outcome p =
      ([WebhookAction.send
          ⟨url, p.evento, ts 1, buildWebhookSignature hm sec (ts 1) (ser p), ser p⟩,
        WebhookAction.sleep d,
        WebhookAction.send
          ⟨url, p.evento, ts 2, buildWebhookSignature hm sec (ts 2) (ser p), ser p⟩],
        false) := by
  simp only [sendNipPersistWebhook, webhookMaxAttempts]
  rw [show (2 : Nat) = 1 + 1 from rfl]
  rw [webhookAttemptLoop]
  simp only [h1, if_false, Bool.false_eq_true]
  rw [show (1 : Nat) = 0 + 1 from rfl]
  rw [webhookAttemptLoop]
  simp [h2]

lemma sendNipPersistWebhook_second_success
    (hm : String → String → String) (ser : WebhookPayload → String)
    (url sec : String) (d : Nat) (ts : Nat → String)
    (outcome : Nat → AttemptOutcome) (p : WebhookPayload)
    (h1 : attemptOk (outcome 1) = false) (h2 : attemptOk (outcome 2) = true) :
    sendNipPersistWebhook hm ser url sec d ts outcome p =
      ([WebhookAction.send
          ⟨url, p.evento, ts 1, buildWebhookSignature hm sec (ts 1) (ser p), ser p⟩,
        WebhookAction.sleep d,
        WebhookAction.send
          ⟨url, p.evento, ts 2, buildWebhookSignature hm sec (ts 2) (ser p), ser p⟩],
        true) := by
  simp only [sendNipPersistWebhook, webhookMaxAttempts]
  rw [show (2 : Nat) = 1 + 1 from rfl]
  rw [webhookAttemptLoop]
  simp only [h1, if_false, Bool.false_eq_true]
  rw [show (1 : Nat) = 0 + 1 from rfl]
  rw [webhookAttemptLoop]
  simp [h2]

/-! Facts about the confirm handler. -/

lemma confirmPayload_evento (row : TokenRow) (rid iso nip : String) :
    (confirmPayload row rid iso nip).evento = "NIP_RESET_CONFIRMADO" := rfl

lemma confirm_all_used_403
    (sha256Hex : String → String) (hm : String → String → String)
    (ser : WebhookPayload → String) (url sec : String) (d : Nat)
    (db : List TokenRow) (now : Int) (nowIso rid : String)
    (ts : Nat → String) (outcome : Nat → AttemptOutcome) (token nip : String)
    (hv : validConfirmBody token nip nip = true)
    (hall : ∀ r ∈ db, r.token_hash = sha256Hex token → r.used_at ≠ none) :
    confirmHandler sha256Hex hm ser url sec d db now nowIso rid ts outcome token nip nip =
      ⟨403, false, "Liga inválida o expirada.", db, []⟩ := by
  cases hlt : latestByHash db (sha256Hex token) with
  | none => simp [confirmHandler, hv, hlt]
  | some row =>
    have hspec := latestByHash_spec db _ row hlt
    have hused : row.used_at.isSome :=
      Option.ne_none_iff_isSome.mp (hall row hspec.1 hspec.2)
    simp [confirmHandler, hv, hlt, hused]

lemma confirm_success_eq
    (sha256Hex : String → String) (hm : String → String → String)
    (ser : WebhookPayload → String) (url sec : String) (d : Nat)
    (db : List TokenRow) (now : Int) (nowIso rid : String)
    (ts : Nat → String) (outcome : Nat → AttemptOutcome)
    (token nip : String) (row : TokenRow)
    (hv : validConfirmBody token nip nip = true)
    (hrow : latestByHash db (sha256Hex token) = some row)
    (hunused : row.used_at = none)
    (hunexp : ¬ row.expires_at < now)
    (hcid : textPresent row.cliente_id = true)
    (hvid : textPresent row.vehiculo_id = true)
    (hcount : markUsedCount db (sha256Hex token) = 1)
    (hok : attemptOk (outcome 1) = true) :
    confirmHandler sha256Hex hm ser url sec d db now nowIso rid ts outcome token nip nip =
      ⟨200, true, "Listo. Tu NIP se actualizó correctamente.",
        markUsedByHash db (sha256Hex token) now,
        [WebhookAction.send
          ⟨url, "NIP_RESET_CONFIRMADO", ts 1,
            buildWebhookSignature hm sec (ts 1) (ser (confirmPayload row rid nowIso nip)),
            ser (confirmPayload row rid nowIso nip)⟩]⟩ := by
  have hwh := sendNipPersistWebhook_first_success hm ser url sec d ts outcome
    (confirmPayload row rid nowIso nip) hok
  simp [confirmHandler, hv, hrow, hunused, hunexp, hcid, hvid, hcount, confirmPayload_evento] at hwh ⊢
  simp [hwh]

lemma confirm_webhook_fail_eq
    (sha256Hex : String → String) (hm : String → String → String)
    (ser : WebhookPayload → String) (url sec : String) (d : Nat)
    (db : List TokenRow) (now : Int) (nowIso rid : String)
    (ts : Nat → String) (outcome : Nat → AttemptOutcome)
    (token nip : String) (row : TokenRow)
    (hv : validConfirmBody token nip nip = true)
    (hrow : latestByHash db (sha256Hex token) = some row)
    (hunused : row.used_at = none)
    (hunexp : ¬ row.expires_at < now)
    (hcid : textPresent row.cliente_id = true)
    (hvid : textPresent row.vehiculo_id = true)
    (h1 : attemptOk (outcome 1) = false)
    (h2 : attemptOk (outcome 2) = false) :
    confirmHandler sha256Hex hm ser url sec d db now nowIso rid ts outcome token nip nip =
      ⟨503, false, "No fue posible completar la operación. Intenta nuevamente.", db,
        [WebhookAction.send
          ⟨url, "NIP_RESET_CONFIRMADO", ts 1,
            buildWebhookSignature hm sec (ts 1) (ser (confirmPayload row rid nowIso nip)),
            ser (confirmPayload row rid nowIso nip)⟩,
          WebhookAction.sleep d,
          WebhookAction.send
          ⟨url, "NIP_RESET_CONFIRMADO", ts 2,
            buildWebhookSignature hm sec (ts 2) (ser (confirmPayload row rid nowIso nip)),
            ser (confirmPayload row rid nowIso nip)⟩]⟩ := by
  have hwh := sendNipPersistWebhook_all_fail hm ser url sec d ts outcome
    (confirmPayload row rid nowIso nip) h1 h2
  simp [confirmHandler, hv, hrow, hunused, hunexp, hcid, hvid, confirmPayload_evento] at hwh ⊢
  simp [hwh]

/-! Claim C10: the legacy-row branch of confirm. -/

/-- C10: a confirm call whose locked row is present, unused and unexpired but
has a null or empty cliente_id or vehiculo_id (a row created by the earlier
single-step flow) aborts the transaction without invoking the webhook, leaves
the table unchanged (the row's used_at stays null), and returns 503 with the
fixed configuration message rather than the invalid-or-expired outcome. -/
theorem legacy_row_returns_503
    (sha256Hex : String → String) (hm : String → String → String)
    (ser : WebhookPayload → String) (url sec : String) (d : Nat)
    (db : List TokenRow) (now : Int) (nowIso rid : String)
    (ts : Nat → String) (outcome : Nat → AttemptOutcome)
    (token nip : String) (row : TokenRow)
    (hv : validConfirmBody token nip nip = true)
    (hrow : latestByHash db (sha256Hex token) = some row)
    (hunused : row.used_at = none)
    (hunexp : ¬ row.expires_at < now)
    (hlegacy : (textPresent row.cliente_id && textPresent row.vehiculo_id) = false) :
    confirmHandler sha256Hex hm ser url sec d db now nowIso rid ts outcome token nip nip =
      ⟨503, false, "Función en configuración. Solicita un nuevo restablecimiento.", db, []⟩ := by
  simp [confirmHandler, hv, hrow, hunused, hunexp, hlegacy]

/-- Witness for C10: the legacy row of dbLegacy, matched by tokB, answered
503 with the configuration message and no state change. -/
theorem legacy_row_returns_503_witness :
    confirmHandler tHash tHmac tSer "https://wh" "sec" 400 dbLegacy 5 "iso" "rid"
        tTs allOk tokB "1234" "1234" =
      ⟨503, false, "Función en configuración. Solicita un nuevo restablecimiento.",
        dbLegacy, []⟩ :=
  legacy_row_returns_503 tHash tHmac tSer "https://wh" "sec" 400 dbLegacy 5 "iso" "rid"
    tTs allOk tokB "1234" rowLegacy (by decide) (by decide) (by decide) (by decide)
    (by decide)

/-! Claim C5: NIP mismatch is rejected before any state is touched. -/

/-- C5: a confirm request whose nip and nipConfirm differ is answered with a
400 validation error (the schema error or the mismatch error), before any
unit of work: the table is returned unchanged and no webhook action occurs. -/
theorem confirm_nip_mismatch_400
    (sha256Hex : String → String) (hm : String → String → String)
    (ser : WebhookPayload → String) (url sec : String) (d : Nat)
    (db : List TokenRow) (now : Int) (nowIso rid : String)
    (ts : Nat → String) (outcome : Nat → AttemptOutcome)
    (token nip nipConfirm : String)
    (hne : nip ≠ nipConfirm) :
    (confirmHandler sha256Hex hm ser url sec d db now nowIso rid ts outcome
        token nip nipConfirm).status = 400 ∧
    (confirmHandler sha256Hex hm ser url sec d db now nowIso rid ts outcome
        token nip nipConfirm).db = db ∧
    (confirmHandler sha256Hex hm ser url sec d db now nowIso rid ts outcome
        token nip nipConfirm).actions = [] := by
  cases hvb : validConfirmBody token nip nipConfirm with
  | false => simp [confirmHandler, hvb]
  | true => simp [confirmHandler, hvb, hne]

/-- Witness for C5: nip 1234 against nipConfirm 5678 on the live table dbA is
answered 400 with dbA unchanged and no webhook action. -/
theorem confirm_nip_mismatch_400_witness :
    (confirmHandler tHash tHmac tSer "https://wh" "sec" 400 dbA 5 "iso" "rid"
        tTs allOk tokA "1234" "5678").status = 400 ∧
    (confirmHandler tHash tHmac tSer "https://wh" "sec" 400 dbA 5 "iso" "rid"
        tTs allOk tokA "1234" "5678").db = dbA ∧
    (confirmHandler tHash tHmac tSer "https://wh" "sec" 400 dbA 5 "iso" "rid"
        tTs allOk tokA "1234" "5678").actions = [] :=
  confirm_nip_mismatch_400 tHash tHmac tSer "https://wh" "sec" 400 dbA 5 "iso" "rid"
    tTs allOk tokA "1234" "5678" (by decide)

/-! Claim C4: the three invalid-token causes are indistinguishable.  The
claim quotes the message as "Liga invalida o expirada."; the literal in
src/index.js (lines 748, 753, 808, 815, 820) is the accented
"Liga inválida o expirada.", so the claim is settled against that literal
and the discrepancy is witnessed below. -/

/-- C4 counterexample: at a concrete token-info call whose token matches no
row, the response status is 403 but its message is not the claim literal
"Liga invalida o expirada." (the code responds with the accented
"Liga inválida o expirada."). -/
theorem liga_message_literal_counterexample :
    (tokenInfoHandler tHash [] 0 tokC).status = 403 ∧
    (tokenInfoHandler tHash [] 0 tokC).message ≠ "Liga invalida o expirada." := by
  decide

/-- C4 (amended): for every token of valid shape whose lookup lands in any of
the three invalid cases — no row with the token's hash, row already used, row
expired — token-info and confirm return one and the same response, status 403
with message "Liga inválida o expirada.", and confirm leaves the table
unchanged and sends nothing, so a caller cannot distinguish the three causes
from the response. -/
theorem invalid_or_expired_indistinguishable
    (sha256Hex : String → String) (hm : String → String → String)
    (ser : WebhookPayload → String) (url sec : String) (d : Nat)
    (db : List TokenRow) (now : Int) (nowIso rid : String)
    (ts : Nat → String) (outcome : Nat → AttemptOutcome) (token nip : String)
    (hshape : validTokenShape token = true)
    (hnip : isNip4 nip = true)
    (hcase : ∀ row, latestByHash db (sha256Hex token) = some row →
      row.used_at ≠ none ∨ row.expires_at < now) :
    tokenInfoHandler sha256Hex db now token =
      ⟨403, false, "Liga inválida o expirada.", none, none, none⟩ ∧
    confirmHandler sha256Hex hm ser url sec d db now nowIso rid ts outcome token nip nip =
      ⟨403, false, "Liga inválida o expirada.", db, []⟩ := by
  have hv : validConfirmBody token nip nip = true := by
    simp [validConfirmBody, hshape, hnip]
  cases hlt : latestByHash db (sha256Hex token) with
  | none =>
    constructor
    · simp [tokenInfoHandler, hshape, hlt]
    · simp [confirmHandler, hv, hlt]
  | some row =>
    rcases hcase row hlt with hca | hca
    · have hsome : row.used_at.isSome = true := Option.ne_none_iff_isSome.mp hca
      constructor
      · simp [tokenInfoHandler, hshape, hlt, hsome]
      · simp [confirmHandler, hv, hlt, hsome]
    · constructor
      · simp [tokenInfoHandler, hshape, hlt, hca]
      · by_cases hus : row.used_at.isSome = true
        · simp [confirmHandler, hv, hlt, hus]
        · simp [confirmHandler, hv, hlt, hus, hca]

/-- Witness for C4 (amended): an already-used row, matched by tokD, draws the
identical 403 response from both endpoints. -/
theorem invalid_or_expired_indistinguishable_witness :
    tokenInfoHandler tHash [rowUsed] 5 tokD =
      ⟨403, false, "Liga inválida o expirada.", none, none, none⟩ ∧
    confirmHandler tHash tHmac tSer "https://wh" "sec" 400 [rowUsed] 5 "iso" "rid"
        tTs allOk tokD "1234" "1234" =
      ⟨403, false, "Liga inválida o expirada.", [rowUsed], []⟩ := by
  refine invalid_or_expired_indistinguishable tHash tHmac tSer "https://wh" "sec" 400
    [rowUsed] 5 "iso" "rid" tTs allOk tokD "1234" (by decide) (by decide) ?_
  intro row hr
  rw [show latestByHash [rowUsed] (tHash tokD) = some rowUsed from by decide] at hr
  injection hr with h1
  subst h1
  decide

/-! Claim C1: confirmation succeeds exactly once per token. -/

/-- C1: a confirm call on a token whose row is present, unused and unexpired
(and is the unique active row carrying this hash), with matching nip and
nipConfirm, delivers the webhook (one request sent), marks the row used,
commits, and reports 200; any later confirm call presenting the same token —
whatever its time, correlation id or webhook outcomes — is answered 403 with
the table unchanged and nothing sent, so confirmation succeeds exactly once
per token. -/
theorem confirm_valid_token_exactly_once
    (sha256Hex : String → String) (hm : String → String → String)
    (ser : WebhookPayload → String) (url sec : String) (d : Nat)
    (db : List TokenRow) (now : Int) (nowIso rid : String)
    (ts : Nat → String) (outcome : Nat → AttemptOutcome)
    (token nip : String) (row : TokenRow)
    (hv : validConfirmBody token nip nip = true)
    (hrow : latestByHash db (sha256Hex token) = some row)
    (hunused : row.used_at = none)
    (hunexp : ¬ row.expires_at < now)
    (hcid : textPresent row.cliente_id = true)
    (hvid : textPresent row.vehiculo_id = true)
    (hcount : markUsedCount db (sha256Hex token) = 1)
    (hok : attemptOk (outcome 1) = true) :
    (confirmHandler sha256Hex hm ser url sec d db now nowIso rid ts outcome
        token nip nip).status = 200 ∧
    (confirmHandler sha256Hex hm ser url sec d db now nowIso rid ts outcome
        token nip nip).db = markUsedByHash db (sha256Hex token) now ∧
    (sentRequests (confirmHandler sha256Hex hm ser url sec d db now nowIso rid ts outcome
        token nip nip).actions).length = 1 ∧
    (∀ (now2 : Int) (iso2 rid2 : String) (ts2 : Nat → String)
        (out2 : Nat → AttemptOutcome),
      confirmHandler sha256Hex hm ser url sec d
          (markUsedByHash db (sha256Hex token) now) now2 iso2 rid2 ts2 out2 token nip nip =
        ⟨403, false, "Liga inválida o expirada.",
          markUsedByHash db (sha256Hex token) now, []⟩) := by
  have heq := confirm_success_eq sha256Hex hm ser url sec d db now nowIso rid ts outcome
    token nip row hv hrow hunused hunexp hcid hvid hcount hok
  refine ⟨by rw [heq], by rw [heq], by rw [heq]; rfl, ?_⟩
  intro now2 iso2 rid2 ts2 out2
  exact confirm_all_used_403 sha256Hex hm ser url sec d
    (markUsedByHash db (sha256Hex token) now) now2 iso2 rid2 ts2 out2 token nip hv
    (markUsedByHash_all_used db (sha256Hex token) now)

/-- Witness for C1: the active row of dbA, confirmed with tokA at time 5,
answers 200 and marks the row; the repeated call at time 9 answers 403. -/
theorem confirm_valid_token_exactly_once_witness :
    (confirmHandler tHash tHmac tSer "https://wh" "sec" 400 dbA 5 "iso" "rid"
        tTs allOk tokA "1234" "1234").status = 200 ∧
    (confirmHandler tHash tHmac tSer "https://wh" "sec" 400 dbA 5 "iso" "rid"
        tTs allOk tokA "1234" "1234").db = markUsedByHash dbA (tHash tokA) 5 ∧
    (sentRequests (confirmHandler tHash tHmac tSer "https://wh" "sec" 400 dbA 5 "iso" "rid"
        tTs allOk tokA "1234" "1234").actions).length = 1 ∧
    confirmHandler tHash tHmac tSer "https://wh" "sec" 400
        (markUsedByHash dbA (tHash tokA) 5) 9 "iso2" "rid2" tTs allOk tokA "1234" "1234" =
      ⟨403, false, "Liga inválida o expirada.", markUsedByHash dbA (tHash tokA) 5, []⟩ := by
  have h := confirm_valid_token_exactly_once tHash tHmac tSer "https://wh" "sec" 400 dbA 5
    "iso" "rid" tTs allOk tokA "1234" rowA (by decide) (by decide) (by decide) (by decide)
    (by decide) (by decide) (by decide) (by decide)
  exact ⟨h.1, h.2.1, h.2.2.1, h.2.2.2 9 "iso2" "rid2" tTs allOk⟩

/-! Claim C3: webhook failure rolls back and the token stays retryable. -/

/-- C3: when every webhook delivery attempt fails, confirm rolls back — the
table it leaves is exactly the table it found, so the row's used_at is still
null — and reports 503 with the dependency-unavailable message after sending
two requests; a later confirm call on the same table with the same token
succeeds with 200 once an attempt gets through, provided the row has not
expired by then. -/
theorem confirm_webhook_failure_rolls_back
    (sha256Hex : String → String) (hm : String → String → String)
    (ser : WebhookPayload → String) (url sec : String) (d : Nat)
    (db : List TokenRow) (now : Int) (nowIso rid : String)
    (ts : Nat → String) (outcome : Nat → AttemptOutcome)
    (token nip : String) (row : TokenRow)
    (hv : validConfirmBody token nip nip = true)
    (hrow : latestByHash db (sha256Hex token) = some row)
    (hunused : row.used_at = none)
    (hunexp : ¬ row.expires_at < now)
    (hcid : textPresent row.cliente_id = true)
    (hvid : textPresent row.vehiculo_id = true)
    (hcount : markUsedCount db (sha256Hex token) = 1)
    (h1 : attemptOk (outcome 1) = false)
    (h2 : attemptOk (outcome 2) = false) :
    (confirmHandler sha256Hex hm ser url sec d db now nowIso rid ts outcome
        token nip nip).status = 503 ∧
    (confirmHandler sha256Hex hm ser url sec d db now nowIso rid ts outcome
        token nip nip).message = "No fue posible completar la operación. Intenta nuevamente." ∧
    (confirmHandler sha256Hex hm ser url sec d db now nowIso rid ts outcome
        token nip nip).db = db ∧
    (sentRequests (confirmHandler sha256Hex hm ser url sec d db now nowIso rid ts outcome
        token nip nip).actions).length = 2 ∧
    (∀ (now2 : Int) (iso2 rid2 : String) (ts2 : Nat → String)
        (out2 : Nat → AttemptOutcome),
      ¬ row.expires_at < now2 → attemptOk (out2 1) = true →
      (confirmHandler sha256Hex hm ser url sec d db now2 iso2 rid2 ts2 out2
          token nip nip).status = 200) := by
  have heq := confirm_webhook_fail_eq sha256Hex hm ser url sec d db now nowIso rid ts
    outcome token nip row hv hrow hunused hunexp hcid hvid h1 h2
  refine ⟨by rw [heq], by rw [heq], by rw [heq], by rw [heq]; rfl, ?_⟩
  intro now2 iso2 rid2 ts2 out2 hexp2 hok2
  have h2eq := confirm_success_eq sha256Hex hm ser url sec d db now2 iso2 rid2 ts2 out2
    token nip row hv hrow hunused hexp2 hcid hvid hcount hok2
  rw [h2eq]

/-- Witness for C3: with every attempt a network error, confirming tokA
against dbA answers 503, makes two attempts and leaves dbA unchanged; the
retry at time 9 with a healthy webhook answers 200. -/
theorem confirm_webhook_failure_rolls_back_witness :
    (confirmHandler tHash tHmac tSer "https://wh" "sec" 400 dbA 5 "iso" "rid"
        tTs allFail tokA "1234" "1234").status = 503 ∧
    (confirmHandler tHash tHmac tSer "https://wh" "sec" 400 dbA 5 "iso" "rid"
        tTs allFail tokA "1234" "1234").db = dbA ∧
    (sentRequests (confirmHandler tHash tHmac tSer "https://wh" "sec" 400 dbA 5 "iso" "rid"
        tTs allFail tokA "1234" "1234").actions).length = 2 ∧
    (confirmHandler tHash tHmac tSer "https://wh" "sec" 400 dbA 9 "iso2" "rid2"
        tTs allOk tokA "1234" "1234").status = 200 := by
  have h := confirm_webhook_failure_rolls_back tHash tHmac tSer "https://wh" "sec" 400 dbA 5
    "iso" "rid" tTs allFail tokA "1234" rowA (by decide) (by decide) (by decide) (by decide)
    (by decide) (by decide) (by decide) (by decide) (by decide)
  exact ⟨h.1, h.2.2.1, h.2.2.2.1, h.2.2.2.2 9 "iso2" "rid2" tTs allOk (by decide) (by decide)⟩

/-! Facts about the send-link handler. -/

lemma sendLink_success_eq
    (sha256Hex : String → String) (db : List TokenRow) (now : Int)
    (w m ttl : Nat) (f : ContactoInfo) (sv : VehiculoInfo)
    (cliente_id vehiculoId token : String) (ip ua : Option String)
    (hcid : f.cliente_id = cliente_id)
    (hsv : f.vehiculos.find? (fun v => v.vehiculoId == vehiculoId) = some sv)
    (hlim : isVehicleRateLimited db now w m cliente_id vehiculoId = false) :
    sendLinkHandler sha256Hex db now w m ttl (some f) cliente_id vehiculoId token true ip ua =
      ⟨200, true, "Hemos enviado al correo registrado la URL para reiniciar tu NIP.",
        supersedeActive db cliente_id vehiculoId now ++
          [issuedRow sha256Hex f sv cliente_id vehiculoId token now ttl ip ua]⟩ := by
  simp [sendLinkHandler, hcid, hsv, hlim]

lemma sendLink_email_fail_eq
    (sha256Hex : String → String) (db : List TokenRow) (now : Int)
    (w m ttl : Nat) (f : ContactoInfo) (sv : VehiculoInfo)
    (cliente_id vehiculoId token : String) (ip ua : Option String)
    (hcid : f.cliente_id = cliente_id)
    (hsv : f.vehiculos.find? (fun v => v.vehiculoId == vehiculoId) = some sv)
    (hlim : isVehicleRateLimited db now w m cliente_id vehiculoId = false) :
    sendLinkHandler sha256Hex db now w m ttl (some f) cliente_id vehiculoId token false ip ua =
      ⟨500, false, "No fue posible completar la operación.",
        markUsedByHash
          (supersedeActive db cliente_id vehiculoId now ++
            [issuedRow sha256Hex f sv cliente_id vehiculoId token now ttl ip ua])
          (sha256Hex token) now⟩ := by
  simp [sendLinkHandler, hcid, hsv, hlim]

lemma supersede_append_active_unique (db : List TokenRow) (c v : String) (now : Int)
    (x : TokenRow) :
    ∀ r ∈ supersedeActive db c v now ++ [x],
      r.cliente_id = some c → r.vehiculo_id = some v → r.used_at = none → r = x := by
  intro r hr h1 h2 h3
  rcases List.mem_append.mp hr with hmem | hmem
  · rcases List.mem_map.mp hmem with ⟨r0, hr0, rfl⟩
    by_cases hcond : r0.cliente_id = some c ∧ r0.vehiculo_id = some v ∧ r0.used_at = none
    · simp [supersedeRow, hcond] at h3
    · simp [supersedeRow, hcond] at h1 h2 h3
      exact absurd ⟨h1, h2, h3⟩ hcond
  · simpa using hmem

/-! Claim C2: issuance supersedes every previously active row of the subject. -/

/-- C2: a successful send-link issuance for a subject key marks every
previously active row of that subject as used and inserts the new row in the
same transaction, so the new row is the one and only active row for that
subject (it is present, unused, and unexpired whenever the TTL is positive);
and a token issued earlier for that subject — all of whose rows belonged to
this subject and whose hash differs from the fresh one — subsequently fails
confirmation with the invalid-or-expired outcome, whatever the time and
webhook environment of that confirm call. -/
theorem send_link_supersedes_prior_active
    (sha256Hex : String → String) (hm : String → String → String)
    (ser : WebhookPayload → String) (url sec : String) (d : Nat)
    (db : List TokenRow) (now now2 : Int) (iso2 rid2 : String)
    (ts2 : Nat → String) (out2 : Nat → AttemptOutcome)
    (w m ttl : Nat) (f : ContactoInfo) (sv : VehiculoInfo)
    (cliente_id vehiculoId token oldToken nip : String) (ip ua : Option String)
    (res : SendLinkResult)
    (hres : sendLinkHandler sha256Hex db now w m ttl (some f) cliente_id vehiculoId token
      true ip ua = res)
    (hcid : f.cliente_id = cliente_id)
    (hsv : f.vehiculos.find? (fun v => v.vehiculoId == vehiculoId) = some sv)
    (hlim : isVehicleRateLimited db now w m cliente_id vehiculoId = false)
    (httl : 0 < ttl)
    (hold : ∀ r ∈ db, r.token_hash = sha256Hex oldToken →
      r.cliente_id = some cliente_id ∧ r.vehiculo_id = some vehiculoId)
    (hneq : sha256Hex oldToken ≠ sha256Hex token)
    (hvold : validConfirmBody oldToken nip nip = true) :
    res.status = 200 ∧
    issuedRow sha256Hex f sv cliente_id vehiculoId token now ttl ip ua ∈ res.db ∧
    ((issuedRow sha256Hex f sv cliente_id vehiculoId token now ttl ip ua).used_at = none ∧
      now < (issuedRow sha256Hex f sv cliente_id vehiculoId token now ttl ip ua).expires_at) ∧
    (∀ r ∈ res.db, r.cliente_id = some cliente_id → r.vehiculo_id = some vehiculoId →
      r.used_at = none →
      r = issuedRow sha256Hex f sv cliente_id vehiculoId token now ttl ip ua) ∧
    confirmHandler sha256Hex hm ser url sec d res.db now2 iso2 rid2 ts2 out2
        oldToken nip nip =
      ⟨403, false, "Liga inválida o expirada.", res.db, []⟩ := by
  subst hres
  have heq := sendLink_success_eq sha256Hex db now w m ttl f sv cliente_id vehiculoId
    token ip ua hcid hsv hlim
  rw [heq]
  refine ⟨rfl, by simp, ⟨rfl, ?_⟩, ?_, ?_⟩
  · simp only [issuedRow]
    omega
  · exact supersede_append_active_unique db cliente_id vehiculoId now _
  · apply confirm_all_used_403
    · exact hvold
    · intro r hr hh
      rcases List.mem_append.mp hr with hmem | hmem
      · rcases List.mem_map.mp hmem with ⟨r0, hr0, rfl⟩
        have hh0 : r0.token_hash = sha256Hex oldToken := by
          rw [← supersedeRow_token_hash cliente_id vehiculoId now r0]
          exact hh
        have hsub := hold r0 hr0 hh0
        exact supersedeRow_used cliente_id vehiculoId now r0 hsub.1 hsub.2
      · have hrx : r = issuedRow sha256Hex f sv cliente_id vehiculoId token now ttl ip ua := by
          simpa using hmem
        rw [hrx] at hh
        exact absurd hh.symm hneq

/-- Witness for C2: issuing tokD for subject (cli2, veh2) over dbOld (which
holds the active row of the earlier token tokC) answers 200, leaves the new
row active, and the old token tokC is then refused with 403. -/
theorem send_link_supersedes_prior_active_witness :
    (sendLinkHandler tHash dbOld 10 60 2 60 (some fxContacto) "cli2" "veh2" tokD
        true none none).status = 200 ∧
    issuedRow tHash fxContacto fxVeh "cli2" "veh2" tokD 10 60 none none ∈
      (sendLinkHandler tHash dbOld 10 60 2 60 (some fxContacto) "cli2" "veh2" tokD
        true none none).db ∧
    confirmHandler tHash tHmac tSer "https://wh" "sec" 400
        (sendLinkHandler tHash dbOld 10 60 2 60 (some fxContacto) "cli2" "veh2" tokD
          true none none).db 11 "iso" "rid" tTs allOk tokC "1234" "1234" =
      ⟨403, false, "Liga inválida o expirada.",
        (sendLinkHandler tHash dbOld 10 60 2 60 (some fxContacto) "cli2" "veh2" tokD
          true none none).db, []⟩ := by
  have h := send_link_supersedes_prior_active tHash tHmac tSer "https://wh" "sec" 400
    dbOld 10 11 "iso" "rid" tTs allOk 60 2 60 fxContacto fxVeh "cli2" "veh2" tokD tokC
    "1234" none none _ rfl (by decide) (by decide) (by decide) (by decide) (by decide)
    (by decide) (by decide)
  exact ⟨h.1, h.2.1, h.2.2.2.2⟩

/-! Claim C7: the per-vehicle rate limit and its short-circuit. -/

/-- C7: the rate-limit decision is a pure read returning true exactly when
the count of rows created for the (cliente_id, vehiculo_id) pair inside the
trailing window reaches the configured maximum; when it trips, send-link
answers 429 and returns the table unchanged — no token row is persisted (in
the source the random secret is only drawn after this check). -/
theorem rate_limited_send_link_429
    (sha256Hex : String → String) (db : List TokenRow) (now : Int)
    (w m ttl : Nat) (f : ContactoInfo) (sv : VehiculoInfo)
    (cliente_id vehiculoId token : String) (emailOk : Bool) (ip ua : Option String)
    (hcid : f.cliente_id = cliente_id)
    (hsv : f.vehiculos.find? (fun v => v.vehiculoId == vehiculoId) = some sv)
    (hlim : isVehicleRateLimited db now w m cliente_id vehiculoId = true) :
    (isVehicleRateLimited db now w m cliente_id vehiculoId = true ↔
      m ≤ (db.filter (fun r => decide (r.cliente_id = some cliente_id ∧
        r.vehiculo_id = some vehiculoId ∧
        now - (w : Int) * 60000 < r.created_at))).length) ∧
    sendLinkHandler sha256Hex db now w m ttl (some f) cliente_id vehiculoId token
        emailOk ip ua =
      ⟨429, false, "Demasiados intentos. Intenta nuevamente más tarde.", db⟩ := by
  refine ⟨by simp [isVehicleRateLimited], ?_⟩
  simp [sendLinkHandler, hcid, hsv, hlim]

/-- Witness for C7: with two recent rows already present for subject
(cli2, veh2) and a maximum of 2 per window, send-link answers 429 and dbTwo
is unchanged. -/
theorem rate_limited_send_link_429_witness :
    (isVehicleRateLimited dbTwo 10 60 2 "cli2" "veh2" = true ↔
      2 ≤ (dbTwo.filter (fun r => decide (r.cliente_id = some "cli2" ∧
        r.vehiculo_id = some "veh2" ∧
        (10 : Int) - (60 : Int) * 60000 < r.created_at))).length) ∧
    sendLinkHandler tHash dbTwo 10 60 2 60 (some fxContacto) "cli2" "veh2" tokD
        true none none =
      ⟨429, false, "Demasiados intentos. Intenta nuevamente más tarde.", dbTwo⟩ :=
  rate_limited_send_link_429 tHash dbTwo 10 60 2 60 fxContacto fxVeh "cli2" "veh2" tokD
    true none none (by decide) (by decide) (by decide)

/-! Claim C9: email failure invalidates the just-issued token. -/

/-- C9: when the token row was committed but the out-of-band email delivery
fails, send-link marks every still-active row holding the fresh token's hash
as used — the just-issued token is no longer active — and answers with the
generic 500 failure message instead of a success message. -/
theorem email_failure_invalidates_token
    (sha256Hex : String → String) (db : List TokenRow) (now : Int)
    (w m ttl : Nat) (f : ContactoInfo) (sv : VehiculoInfo)
    (cliente_id vehiculoId token : String) (ip ua : Option String)
    (hcid : f.cliente_id = cliente_id)
    (hsv : f.vehiculos.find? (fun v => v.vehiculoId == vehiculoId) = some sv)
    (hlim : isVehicleRateLimited db now w m cliente_id vehiculoId = false) :
    (sendLinkHandler sha256Hex db now w m ttl (some f) cliente_id vehiculoId token
        false ip ua).status = 500 ∧
    (sendLinkHandler sha256Hex db now w m ttl (some f) cliente_id vehiculoId token
        false ip ua).message = "No fue posible completar la operación." ∧
    (∀ r ∈ (sendLinkHandler sha256Hex db now w m ttl (some f) cliente_id vehiculoId token
        false ip ua).db, r.token_hash = sha256Hex token → r.used_at ≠ none) := by
  have heq := sendLink_email_fail_eq sha256Hex db now w m ttl f sv cliente_id vehiculoId
    token ip ua hcid hsv hlim
  refine ⟨by rw [heq], by rw [heq], ?_⟩
  rw [heq]
  exact markUsedByHash_all_used _ _ _

/-- Witness for C9: issuing tokD for (cli2, veh2) over dbOld with a failing
email step answers 500 with the generic message, and the freshly inserted
row comes out marked used. -/
theorem email_failure_invalidates_token_witness :
    (sendLinkHandler tHash dbOld 10 60 2 60 (some fxContacto) "cli2" "veh2" tokD
        false none none).status = 500 ∧
    (sendLinkHandler tHash dbOld 10 60 2 60 (some fxContacto) "cli2" "veh2" tokD
        false none none).message = "No fue posible completar la operación." ∧
    (markUsedRow (tHash tokD) 10
        (issuedRow tHash fxContacto fxVeh "cli2" "veh2" tokD 10 60 none none)).used_at ≠
      none := by
  have h := email_failure_invalidates_token tHash dbOld 10 60 2 60 fxContacto fxVeh
    "cli2" "veh2" tokD none none (by decide) (by decide) (by decide)
  exact ⟨h.1, h.2.1, h.2.2 _ (by decide) (by decide)⟩

/-! Claim C8: token_hash uniqueness among non-superseded rows. -/

/-- C8 counterexample: the write path does not guarantee global token_hash
uniqueness by construction.  Issuing the same secret tokA for two different
subject keys leaves a two-row table in which both rows are non-superseded
(used_at null) yet carry the same token_hash. -/
theorem token_hash_not_globally_unique :
    c8db2.map TokenRow.token_hash = [tHash tokA, tHash tokA] ∧
    c8db2.map TokenRow.used_at = [none, none] ∧
    c8db2.map TokenRow.cliente_id = [some "cliX", some "cliY"] := by decide

/-- C8 (amended): the write path guarantees uniqueness per subject key, not
globally: after a successful issuance, any two rows of the resulting table
that are active for the issued subject key are one and the same row (so no
two distinct active rows of a subject can share a token_hash); uniqueness of
token_hash across different subject keys is not enforced by construction and
rests on the negligible collision probability of the random secret, the read
path resolving a hash to the most recently created matching row. -/
theorem active_token_rows_per_subject_unique
    (sha256Hex : String → String) (db : List TokenRow) (now : Int)
    (w m ttl : Nat) (f : ContactoInfo) (sv : VehiculoInfo)
    (cliente_id vehiculoId token : String) (ip ua : Option String)
    (res : SendLinkResult)
    (hres : sendLinkHandler sha256Hex db now w m ttl (some f) cliente_id vehiculoId token
      true ip ua = res)
    (hcid : f.cliente_id = cliente_id)
    (hsv : f.vehiculos.find? (fun v => v.vehiculoId == vehiculoId) = some sv)
    (hlim : isVehicleRateLimited db now w m cliente_id vehiculoId = false) :
    ∀ r1 ∈ res.db, ∀ r2 ∈ res.db,
      r1.cliente_id = some cliente_id → r1.vehiculo_id = some vehiculoId →
      r1.used_at = none →
      r2.cliente_id = some cliente_id → r2.vehiculo_id = some vehiculoId →
      r2.used_at = none → r1 = r2 := by
  subst hres
  have heq := sendLink_success_eq sha256Hex db now w m ttl f sv cliente_id vehiculoId
    token ip ua hcid hsv hlim
  rw [heq]
  intro r1 h1 r2 h2 h1c h1v h1u h2c h2v h2u
  have e1 := supersede_append_active_unique db cliente_id vehiculoId now _ r1 h1 h1c h1v h1u
  have e2 := supersede_append_active_unique db cliente_id vehiculoId now _ r2 h2 h2c h2v h2u
  rw [e1, e2]

/-- Witness for C8 (amended): after issuing tokD for (cli2, veh2) over dbOld,
the two physical copies of the only active row for that subject coincide. -/
theorem active_token_rows_per_subject_unique_witness :
    issuedRow tHash fxContacto fxVeh "cli2" "veh2" tokD 10 60 none none =
      issuedRow tHash fxContacto fxVeh "cli2" "veh2" tokD 10 60 none none := by
  have h := active_token_rows_per_subject_unique tHash dbOld 10 60 2 60 fxContacto fxVeh
    "cli2" "veh2" tokD none none _ rfl (by decide) (by decide) (by decide)
  exact h _ (by decide) _ (by decide) (by decide) (by decide) (by decide) (by decide)
    (by decide) (by decide)

/-! Claim C6: the webhook notifier contract. -/

/-- C6: the Webhook Notifier serializes the payload once — every request it
sends carries the same body, the single serialization of the payload — signs
each attempt with the keyed hash over timestamp ++ "." ++ body, carries the
event name and that timestamp alongside the signature, makes at least one and
at most webhookMaxAttempts = 2 attempts with exactly the fixed delay between
consecutive attempts, reports failure only when the last allowed attempt has
failed, and treats a non-2xx response and a network/timeout error
identically: its whole behaviour depends only on whether each attempt was
ok. -/
theorem webhook_notifier_contract
    (hm : String → String → String) (ser : WebhookPayload → String)
    (url sec : String) (d : Nat) (ts : Nat → String)
    (outcome : Nat → AttemptOutcome) (p : WebhookPayload) :
    (∀ r ∈ sentRequests (sendNipPersistWebhook hm ser url sec d ts outcome p).1,
      r.url = url ∧ r.event = p.evento ∧ r.body = ser p ∧
      r.signature = buildWebhookSignature hm sec r.timestamp (ser p)) ∧
    1 ≤ (sentRequests (sendNipPersistWebhook hm ser url sec d ts outcome p).1).length ∧
    (sentRequests (sendNipPersistWebhook hm ser url sec d ts outcome p).1).length ≤
      webhookMaxAttempts ∧
    ((sendNipPersistWebhook hm ser url sec d ts outcome p).2 =
      (attemptOk (outcome 1) || attemptOk (outcome 2))) ∧
    ((sendNipPersistWebhook hm ser url sec d ts outcome p).2 = false →
      (sentRequests (sendNipPersistWebhook hm ser url sec d ts outcome p).1).length =
        webhookMaxAttempts) ∧
    (∀ ms, WebhookAction.sleep ms ∈ (sendNipPersistWebhook hm ser url sec d ts outcome p).1 →
      ms = d) ∧
    (((sendNipPersistWebhook hm ser url sec d ts outcome p).1.filter
        (fun a => match a with
          | WebhookAction.sleep _ => true
          | WebhookAction.send _ => false)).length + 1 =
      (sentRequests (sendNipPersistWebhook hm ser url sec d ts outcome p).1).length) ∧
    (∀ outcome2 : Nat → AttemptOutcome,
      (∀ n, attemptOk (outcome2 n) = attemptOk (outcome n)) →
      sendNipPersistWebhook hm ser url sec d ts outcome2 p =
        sendNipPersistWebhook hm ser url sec d ts outcome p) := by
  cases h1 : attemptOk (outcome 1) with
  | true =>
    have heq := sendNipPersistWebhook_first_success hm ser url sec d ts outcome p h1
    rw [heq]
    refine ⟨?_, ?_, ?_, ?_, ?_, ?_, ?_, ?_⟩
    · intro r hr
      simp [sentRequests] at hr
      subst hr
      exact ⟨rfl, rfl, rfl, rfl⟩
    · simp [sentRequests]
    · simp [sentRequests, webhookMaxAttempts]
    · simp [h1]
    · intro hfalse
      simp at hfalse
    · intro ms hms
      simp at hms
    · simp [sentRequests]
    · intro o2 ho
      have h1o : attemptOk (o2 1) = true := by rw [ho 1]; exact h1
      rw [sendNipPersistWebhook_first_success hm ser url sec d ts o2 p h1o]
  | false =>
    cases h2 : attemptOk (outcome 2) with
    | true =>
      have heq := sendNipPersistWebhook_second_success hm ser url sec d ts outcome p h1 h2
      rw [heq]
      refine ⟨?_, ?_, ?_, ?_, ?_, ?_, ?_, ?_⟩
      · intro r hr
        simp [sentRequests] at hr
        rcases hr with hr | hr <;> subst hr
        · exact ⟨rfl, rfl, rfl, rfl⟩
        · exact ⟨rfl, rfl, rfl, rfl⟩
      · simp [sentRequests]
      · simp [sentRequests, webhookMaxAttempts]
      · simp [h1, h2]
      · intro hfalse
        simp at hfalse
      · intro ms hms
        simp [sentRequests] at hms
        exact hms
      · simp [sentRequests]
      · intro o2 ho
        have h1o : attemptOk (o2 1) = false := by rw [ho 1]; exact h1
        have h2o : attemptOk (o2 2) = true := by rw [ho 2]; exact h2
        rw [sendNipPersistWebhook_second_success hm ser url sec d ts o2 p h1o h2o]
    | false =>
      have heq := sendNipPersistWebhook_all_fail hm ser url sec d ts outcome p h1 h2
      rw [heq]
      refine ⟨?_, ?_, ?_, ?_, ?_, ?_, ?_, ?_⟩
      · intro r hr
        simp [sentRequests] at hr
        rcases hr with hr | hr <;> subst hr
        · exact ⟨rfl, rfl, rfl, rfl⟩
        · exact ⟨rfl, rfl, rfl, rfl⟩
      · simp [sentRequests]
      · simp [sentRequests, webhookMaxAttempts]
      · simp [h1, h2]
      · intro _
        simp [sentRequests, webhookMaxAttempts]
      · intro ms hms
        simp [sentRequests] at hms
        exact hms
      · simp [sentRequests]
      · intro o2 ho
        have h1o : attemptOk (o2 1) = false := by rw [ho 1]; exact h1
        have h2o : attemptOk (o2 2) = false := by rw [ho 2]; exact h2
        rw [sendNipPersistWebhook_all_fail hm ser url sec d ts o2 p h1o h2o]

/-- Witness for C6: with both attempts failing on a concrete payload, the
delivery reports failure and exactly webhookMaxAttempts requests were sent. -/
theorem webhook_notifier_contract_witness :
    (sendNipPersistWebhook tHmac tSer "https://wh" "sec" 400 tTs allFail
        (confirmPayload rowA "rid" "iso" "1234")).2 = false ∧
    (sentRequests (sendNipPersistWebhook tHmac tSer "https://wh" "sec" 400 tTs allFail
        (confirmPayload rowA "rid" "iso" "1234")).1).length = webhookMaxAttempts := by
  have h := webhook_notifier_contract tHmac tSer "https://wh" "sec" 400 tTs allFail
    (confirmPayload rowA "rid" "iso" "1234")
  exact ⟨by decide, h.2.2.2.2.1 (by decide)⟩

end AmaNipReset
